import Mathlib

/-!
Verification of the InvestIA React/TypeScript frontend.

This file gives a shallow embedding, in Lean 4, of the pure logic of the
InvestIA frontend components (portfolio aggregation, allocation chart
grouping, rebalance panel parameter building and apply payloads, chat box
history transitions, API client token handling, transaction history error
handling and news sorting), translated directly from the TypeScript source,
and proves properties of the embedded definitions.

Conventions:
- monetary amounts, quantities and prices are rationals (ℚ);
- optional TypeScript fields become `Option` values;
- the JavaScript or-else idiom `x || y` on strings (where `undefined` and
  the empty string are falsy) is modelled by `jsOr`;
- a React event handler that performs an async request is collapsed into a
  step function taking the request outcome as an argument and returning the
  updated component state together with the requests it issues.
-/

namespace InvestIA

/-- JavaScript `x || y` where `x` is an optional string field: `undefined`
and the empty string are falsy and fall through to `y`; any other string is
returned unchanged. -/
def jsOr : Option String → String → String
  | some s, b => if s = "" then b else s
  | none, b => b

/-! ### Assets and the portfolio total (AssetsList.tsx, Dashboard in App.tsx) -/

/-- Asset row as typed in AssetsList.tsx and AllocationChart.tsx: `quantity`
and `last_price` are optional; `symbol` is what the allocation chart
displays.  Fields not used by the embedded logic are omitted. -/
structure Asset where
  symbol : String
  quantity : Option ℚ
  last_price : Option ℚ
deriving Repr, DecidableEq

/-- Value of a single position exactly as `totalValue` and the allocation
chart compute it: `(a.quantity ?? 1) * (a.last_price ?? 1)`. -/
def rawValue (a : Asset) : ℚ := a.quantity.getD 1 * a.last_price.getD 1

/-- Translation of `AssetsList.totalValue` (identical code appears as
`Dashboard.totalValue` in App.tsx):
if the list is empty return 0, else reduce with
`(sum, a) => sum + (a.quantity ?? 1) * (a.last_price ?? 1)` from 0. -/
def totalValue (assets : List Asset) : ℚ :=
  if assets.isEmpty then 0
  else assets.foldl (fun sum a => sum + rawValue a) 0

/-- Folding addition of a mapped value over a list equals the starting value
plus the sum of the mapped list. -/
theorem foldl_add_map {α : Type} (v : α → ℚ) :
    ∀ (l : List α) (c : ℚ), l.foldl (fun s a => s + v a) c = c + (l.map v).sum := by
  intro l
  induction l with
  | nil => intro c; simp
  | cons x xs ih =>
    intro c
    simp [List.foldl, ih, add_assoc]

/-- C1: the displayed portfolio total is pure arithmetic over the asset
list: for every list of assets it equals the sum over the list of
(quantity, defaulting to 1 when missing) times (last price, defaulting to 1
when missing), and the empty list yields 0. -/
theorem totalValue_is_sum (assets : List Asset) :
    totalValue assets = (assets.map rawValue).sum ∧ totalValue ([] : List Asset) = 0 := by
  constructor
  · unfold totalValue
    by_cases h : assets.isEmpty
    · rw [if_pos h]
      rw [List.isEmpty_iff] at h
      subst h; simp
    · rw [if_neg h, foldl_add_map, zero_add]
  · rfl

/-! ### ApiClient.ts: setAuthToken -/

/-- State touched by `setAuthToken` in ApiClient.ts: the browser
localStorage and the axios default headers, each modelled as a partial map
from key to value. -/
structure ClientState where
  storage : String → Option String
  headers : String → Option String

/-- Remove a key from a partial map. -/
def removeKey (f : String → Option String) (k : String) : String → Option String :=
  fun x => if x = k then none else f x

/-- Set a key in a partial map. -/
def setKey (f : String → Option String) (k v : String) : String → Option String :=
  fun x => if x = k then some v else f x

/-- Translation of `setAuthToken(token?: string)` in ApiClient.ts:
`if (!token)` (token absent or the empty string) removes the localStorage
key `token` and deletes the `Authorization` default header; otherwise it
stores the token under `token` and sets the header to `Bearer ` + token. -/
def setAuthToken (token : Option String) (st : ClientState) : ClientState :=
  match token with
  | none =>
      { storage := removeKey st.storage "token"
        headers := removeKey st.headers "Authorization" }
  | some t =>
      if t = "" then
        { storage := removeKey st.storage "token"
          headers := removeKey st.headers "Authorization" }
      else
        { storage := setKey st.storage "token" t
          headers := setKey st.headers "Authorization" ("Bearer " ++ t) }

/-- Setting the same key twice to the same value is the same as setting it
once. -/
theorem setKey_idem (f : String → Option String) (k v : String) :
    setKey (setKey f k v) k v = setKey f k v := by
  funext x; by_cases hx : x = k <;> simp [setKey, hx]

/-- Removing the same key twice is the same as removing it once. -/
theorem removeKey_idem (f : String → Option String) (k : String) :
    removeKey (removeKey f k) k = removeKey f k := by
  funext x; by_cases hx : x = k <;> simp [removeKey, hx]

/-- C8: `setAuthToken` round-trips with storage and headers.  After
`setAuthToken (some t)` for non-empty `t`, localStorage key `token` holds
`t` and the `Authorization` header equals `Bearer ` + `t`; after
`setAuthToken none` both are removed; both operations are idempotent and
leave every other storage key and every other header unchanged. -/
theorem setAuthToken_roundtrip (st : ClientState) (t : String) (ht : t ≠ "") :
    (setAuthToken (some t) st).storage "token" = some t ∧
    (setAuthToken (some t) st).headers "Authorization" = some ("Bearer " ++ t) ∧
    (∀ k, k ≠ "token" → (setAuthToken (some t) st).storage k = st.storage k) ∧
    (∀ k, k ≠ "Authorization" → (setAuthToken (some t) st).headers k = st.headers k) ∧
    setAuthToken (some t) (setAuthToken (some t) st) = setAuthToken (some t) st ∧
    (setAuthToken none st).storage "token" = none ∧
    (setAuthToken none st).headers "Authorization" = none ∧
    (∀ k, k ≠ "token" → (setAuthToken none st).storage k = st.storage k) ∧
    (∀ k, k ≠ "Authorization" → (setAuthToken none st).headers k = st.headers k) ∧
    setAuthToken none (setAuthToken none st) = setAuthToken none st := by
  refine ⟨?_, ?_, ?_, ?_, ?_, ?_, ?_, ?_, ?_, ?_⟩
  · simp [setAuthToken, ht, setKey]
  · simp [setAuthToken, ht, setKey]
  · intro k hk; simp [setAuthToken, ht, setKey, hk]
  · intro k hk; simp [setAuthToken, ht, setKey, hk]
  · simp only [setAuthToken, if_neg ht]
    rw [setKey_idem, setKey_idem]
  · simp [setAuthToken, removeKey]
  · simp [setAuthToken, removeKey]
  · intro k hk; simp [setAuthToken, removeKey, hk]
  · intro k hk; simp [setAuthToken, removeKey, hk]
  · simp only [setAuthToken]
    rw [removeKey_idem, removeKey_idem]

/-- Witness for C8 at the concrete token `abc` and the empty client state. -/
theorem setAuthToken_roundtrip_witness :
    ("abc" : String) ≠ "" ∧
    ((setAuthToken (some "abc") ⟨fun _ => none, fun _ => none⟩).storage "token" = some "abc" ∧
      (setAuthToken (some "abc") ⟨fun _ => none, fun _ => none⟩).headers "Authorization" =
        some ("Bearer " ++ "abc") ∧
      (∀ k, k ≠ "token" →
        (setAuthToken (some "abc") ⟨fun _ => none, fun _ => none⟩).storage k =
          (⟨fun _ => none, fun _ => none⟩ : ClientState).storage k) ∧
      (∀ k, k ≠ "Authorization" →
        (setAuthToken (some "abc") ⟨fun _ => none, fun _ => none⟩).headers k =
          (⟨fun _ => none, fun _ => none⟩ : ClientState).headers k) ∧
      setAuthToken (some "abc") (setAuthToken (some "abc") ⟨fun _ => none, fun _ => none⟩) =
        setAuthToken (some "abc") ⟨fun _ => none, fun _ => none⟩ ∧
      (setAuthToken none ⟨fun _ => none, fun _ => none⟩).storage "token" = none ∧
      (setAuthToken none ⟨fun _ => none, fun _ => none⟩).headers "Authorization" = none ∧
      (∀ k, k ≠ "token" →
        (setAuthToken none ⟨fun _ => none, fun _ => none⟩).storage k =
          (⟨fun _ => none, fun _ => none⟩ : ClientState).storage k) ∧
      (∀ k, k ≠ "Authorization" →
        (setAuthToken none ⟨fun _ => none, fun _ => none⟩).headers k =
          (⟨fun _ => none, fun _ => none⟩ : ClientState).headers k) ∧
      setAuthToken none (setAuthToken none ⟨fun _ => none, fun _ => none⟩) =
        setAuthToken none ⟨fun _ => none, fun _ => none⟩) :=
  ⟨by decide, setAuthToken_roundtrip ⟨fun _ => none, fun _ => none⟩ "abc" (by decide)⟩

/-! ### TransactionsHistory (Chatbox.tsx): voiding is a soft delete -/

/-- HTTP methods used by the frontend through the axios client. -/
inductive Method
  | get
  | post
  | patch
  | delete
deriving Repr, DecidableEq

/-- Status of a transaction as typed in TransactionsHistory. -/
inductive TxStatus
  | active
  | voided
deriving Repr, DecidableEq

/-- Transaction row fields used by the embedded logic. -/
structure Transaction where
  id : Nat
  status : TxStatus
deriving Repr, DecidableEq

/-- Request issued by `handleVoidConfirm`:
`api.post(`/portfolio/transactions/id/void`, payload)`. -/
def voidRequestMethod : Method := Method.post

/-- Path of the void request for a given transaction id. -/
def voidRequestPath (id : Nat) : String :=
  "/portfolio/transactions/" ++ toString id ++ "/void"

/-- Disabled flag on the Editar button:
`disabled={tx.status === voided}`. -/
def editDisabled (tx : Transaction) : Bool := tx.status == TxStatus.voided

/-- Disabled flag on the Anular button:
`disabled={tx.status === voided}`. -/
def voidDisabled (tx : Transaction) : Bool := tx.status == TxStatus.voided

/-- C3: voiding is a soft delete preserving audit history: the void action
is a POST to /portfolio/transactions/id/void and never an HTTP DELETE, and
every transaction whose status is voided has both the edit and the void
actions disabled, so it cannot be mutated or re-voided through the UI. -/
theorem void_is_soft_delete (id : Nat) (tx : Transaction) :
    voidRequestMethod = Method.post ∧
    voidRequestMethod ≠ Method.delete ∧
    voidRequestPath id = "/portfolio/transactions/" ++ toString id ++ "/void" ∧
    (tx.status = TxStatus.voided → editDisabled tx = true ∧ voidDisabled tx = true) := by
  refine ⟨rfl, by decide, rfl, ?_⟩
  intro h
  simp [editDisabled, voidDisabled, h]

/-- Witness for C3 at transaction id 7 with status voided, with the
voided-status hypothesis discharged. -/
theorem void_is_soft_delete_witness :
    voidRequestMethod = Method.post ∧
    voidRequestMethod ≠ Method.delete ∧
    voidRequestPath 7 = "/portfolio/transactions/" ++ toString 7 ++ "/void" ∧
    editDisabled ⟨7, TxStatus.voided⟩ = true ∧ voidDisabled ⟨7, TxStatus.voided⟩ = true :=
  have h := void_is_soft_delete 7 ⟨7, TxStatus.voided⟩
  ⟨h.1, h.2.1, h.2.2.1, (h.2.2.2 rfl).1, (h.2.2.2 rfl).2⟩

/-! ### ChatBox (Chatbox.tsx): send -/

/-- Model of JavaScript `String.prototype.trim()`: drop leading and
trailing whitespace characters. -/
def jsTrim (s : String) : String :=
  String.mk (((s.data.dropWhile Char.isWhitespace).reverse.dropWhile
    Char.isWhitespace).reverse)

/-- Author of a chat message (`from` in the TypeScript `Msg` type). -/
inductive Sender
  | user
  | bot
deriving Repr, DecidableEq

/-- Chat message as stored in the ChatBox history. -/
structure ChatMsg where
  sender : Sender
  text : String
deriving Repr, DecidableEq

/-- ChatBox component state used by `send`. -/
structure ChatState where
  msg : String
  history : List ChatMsg
  loading : Bool
deriving Repr, DecidableEq

/-- Outcome of the POST to /chat. -/
inductive ChatOutcome
  | success (reply : Option String)
  | failure
deriving Repr, DecidableEq

/-- Bot text appended by `send`: on success `res.data?.reply ?? "Sem
resposta."` (nullish coalescing, so an empty reply is shown as is), on HTTP
failure the fixed error text. -/
def botReply : ChatOutcome → String
  | ChatOutcome.success reply => reply.getD "Sem resposta."
  | ChatOutcome.failure => "Erro ao consultar o assistente."

/-- Translation of `ChatBox.send` collapsed over the request outcome: if the
trimmed message is empty or a request is in flight, the history is
unchanged; otherwise one user entry with the trimmed message is appended,
followed by one bot entry determined by the outcome. -/
def send (st : ChatState) (outcome : ChatOutcome) : List ChatMsg :=
  let userMsg := jsTrim st.msg
  if userMsg = "" || st.loading then st.history
  else st.history ++ [⟨Sender.user, userMsg⟩, ⟨Sender.bot, botReply outcome⟩]

/-- Storage write performed by the effect on `[history]`: localStorage key
chat_history is set to the serialized history after every change. -/
def chatStorageAfter (history : List ChatMsg) : Option (List ChatMsg) := some history

/-- C7: sending a non-empty trimmed message appends exactly one user entry
followed by exactly one bot entry (the backend reply, the fixed text Sem
resposta. when the reply field is missing, or the fixed error text on HTTP
failure); empty or whitespace-only sends and sends while loading leave the
history unchanged; the history is persisted to localStorage after every
change. -/
theorem chat_send_spec (st : ChatState) (outcome : ChatOutcome) :
    (jsTrim st.msg = "" ∨ st.loading = true → send st outcome = st.history) ∧
    (jsTrim st.msg ≠ "" → st.loading = false →
      send st outcome =
        st.history ++ [⟨Sender.user, jsTrim st.msg⟩, ⟨Sender.bot, botReply outcome⟩]) ∧
    (∀ reply, botReply (ChatOutcome.success (some reply)) = reply) ∧
    botReply (ChatOutcome.success none) = "Sem resposta." ∧
    botReply ChatOutcome.failure = "Erro ao consultar o assistente." ∧
    chatStorageAfter (send st outcome) = some (send st outcome) := by
  refine ⟨?_, ?_, fun reply => rfl, rfl, rfl, rfl⟩
  · intro h
    rcases h with h | h <;> simp [send, h]
  · intro h1 h2
    simp [send, h1, h2]

/-- Witness for C7: a concrete send of the message "oi " (trimming to "oi")
with a missing reply field appends one user entry and one bot entry with the
fixed text, a loading-state send leaves the history unchanged, and the
storage mirrors the history; all hypotheses discharged concretely. -/
theorem chat_send_spec_witness :
    send ⟨"oi ", [], false⟩ (ChatOutcome.success none) =
      [] ++ [⟨Sender.user, jsTrim "oi "⟩,
             ⟨Sender.bot, botReply (ChatOutcome.success none)⟩] ∧
    send ⟨"oi ", [⟨Sender.user, "x"⟩], true⟩ ChatOutcome.failure = [⟨Sender.user, "x"⟩] ∧
    botReply (ChatOutcome.success none) = "Sem resposta." ∧
    botReply ChatOutcome.failure = "Erro ao consultar o assistente." ∧
    chatStorageAfter (send ⟨"oi ", [], false⟩ (ChatOutcome.success none)) =
      some (send ⟨"oi ", [], false⟩ (ChatOutcome.success none)) :=
  have h1 := chat_send_spec ⟨"oi ", [], false⟩ (ChatOutcome.success none)
  have h2 := chat_send_spec ⟨"oi ", [⟨Sender.user, "x"⟩], true⟩ ChatOutcome.failure
  ⟨h1.2.1 (by decide) rfl, h2.1 (Or.inr rfl), h1.2.2.2.1, h1.2.2.2.2.1, h1.2.2.2.2.2⟩

/-! ### Request-failure handling (RebalancePanel.load, PortfolioEvolutionChart.loadData, TransactionsHistory.fetchTransactions) -/

/-- Error object observed in a catch branch: `detail` collapses
`err?.response?.data?.detail` (none when any link of the chain is missing)
and `message` models `err?.message`. -/
structure ApiError where
  detail : Option String
  message : Option String
deriving Repr, DecidableEq

/-- Fixed fallback text of `RebalancePanel.load`. -/
def rebalanceLoadFallback : String := "Falha ao calcular sugestões de rebalanceamento."

/-- Error message computed in the catch branch of `RebalancePanel.load`:
`err?.response?.data?.detail || err?.message || rebalanceLoadFallback`. -/
def rebalanceErrorMessage (e : ApiError) : String :=
  jsOr e.detail (jsOr e.message rebalanceLoadFallback)

/-- Error message computed in the catch branch of
`PortfolioEvolutionChart.loadData`:
`err?.response?.data?.detail || "Falha ao carregar evolucao da carteira."`. -/
def evolutionErrorMessage (e : ApiError) : String :=
  jsOr e.detail "Falha ao carregar evolucao da carteira."

/-- Error message computed in the catch branch of
`TransactionsHistory.fetchTransactions`:
`err?.response?.data?.detail || "Falha ao carregar histórico."`. -/
def historyErrorMessage (e : ApiError) : String :=
  jsOr e.detail "Falha ao carregar histórico."

/-- Events driving a data-loading component: the initial mount effect, an
explicit user click on the calculate/retry button, and the completion of an
outstanding request (success with data, or HTTP failure). -/
inductive FetchEvent (D : Type)
  | mount
  | click
  | success (d : D)
  | failure (e : ApiError)

/-- State of a data-loading component. -/
structure FetchState (D : Type) where
  data : Option D
  loading : Bool
  error : Option String

/-- One step of a data-loading component, parameterised by the catch-branch
message function and by whether the catch branch clears the loaded data
(RebalancePanel does via `setData(null)`; the evolution chart and the
transactions history keep the previous data).  The boolean result records
whether the step issues an HTTP request. -/
def fetchStep {D : Type} (errMsg : ApiError → String) (clearDataOnError : Bool)
    (st : FetchState D) : FetchEvent D → FetchState D × Bool
  | FetchEvent.mount => ({ st with loading := true, error := none }, true)
  | FetchEvent.click => ({ st with loading := true, error := none }, true)
  | FetchEvent.success d => ({ data := some d, loading := false, error := none }, false)
  | FetchEvent.failure e =>
      ({ data := if clearDataOnError then none else st.data
         loading := false
         error := some (errMsg e) }, false)

/-- Step function of `RebalancePanel.load`. -/
def rebalanceStep {D : Type} : FetchState D → FetchEvent D → FetchState D × Bool :=
  fetchStep rebalanceErrorMessage true

/-- Step function of `PortfolioEvolutionChart.loadData`. -/
def evolutionStep {D : Type} : FetchState D → FetchEvent D → FetchState D × Bool :=
  fetchStep evolutionErrorMessage false

/-- Step function of `TransactionsHistory.fetchTransactions`. -/
def historyStep {D : Type} : FetchState D → FetchEvent D → FetchState D × Bool :=
  fetchStep historyErrorMessage false

/-- C2 counterexample: the claim says that when the response body has no
detail field the component displays a fixed text, but `RebalancePanel.load`
first falls back to the error object message: an error with no detail and
message Network Error is displayed as Network Error, not as the fixed
text. -/
theorem rebalance_error_message_not_fixed :
    (⟨none, some "Network Error"⟩ : ApiError).detail = none ∧
    rebalanceErrorMessage ⟨none, some "Network Error"⟩ = "Network Error" ∧
    rebalanceErrorMessage ⟨none, some "Network Error"⟩ ≠ rebalanceLoadFallback := by
  refine ⟨rfl, rfl, ?_⟩
  decide

/-- C2 (amended): every failed data-loading operation stores and displays
the message from the response body detail field; when that field is absent
or empty, the evolution chart and the transactions history fall back
directly to a fixed text, while the rebalance panel falls back first to the
error object message and then to a fixed text; the failure branch issues no
request, and requests are issued only by the mount effect and by explicit
user clicks, so no automatic retry or backoff occurs. -/
theorem fetch_error_handling {D : Type} (st : FetchState D) (e : ApiError) (d' : D) :
    (rebalanceStep st (FetchEvent.failure e)).2 = false ∧
    (evolutionStep st (FetchEvent.failure e)).2 = false ∧
    (historyStep st (FetchEvent.failure e)).2 = false ∧
    (rebalanceStep st (FetchEvent.success d')).2 = false ∧
    (evolutionStep st (FetchEvent.success d')).2 = false ∧
    (historyStep st (FetchEvent.success d')).2 = false ∧
    (rebalanceStep st (FetchEvent.failure e)).1.error = some (rebalanceErrorMessage e) ∧
    (evolutionStep st (FetchEvent.failure e)).1.error = some (evolutionErrorMessage e) ∧
    (historyStep st (FetchEvent.failure e)).1.error = some (historyErrorMessage e) ∧
    (∀ s, e.detail = some s → s ≠ "" →
      rebalanceErrorMessage e = s ∧ evolutionErrorMessage e = s ∧ historyErrorMessage e = s) ∧
    (e.detail = none →
      rebalanceErrorMessage e = jsOr e.message rebalanceLoadFallback ∧
      evolutionErrorMessage e = "Falha ao carregar evolucao da carteira." ∧
      historyErrorMessage e = "Falha ao carregar histórico.") ∧
    (rebalanceStep (D := D) st FetchEvent.mount).2 = true ∧
    (rebalanceStep (D := D) st FetchEvent.click).2 = true := by
  refine ⟨rfl, rfl, rfl, rfl, rfl, rfl, rfl, rfl, rfl, ?_, ?_, rfl, rfl⟩
  · intro s hs hne
    simp [rebalanceErrorMessage, evolutionErrorMessage, historyErrorMessage, jsOr, hs, hne]
  · intro hnone
    simp [rebalanceErrorMessage, evolutionErrorMessage, historyErrorMessage, jsOr, hnone]

/-- Witness for C2 at a concrete state and a concrete error carrying the
detail text Erro, with all hypotheses discharged. -/
theorem fetch_error_handling_witness :
    (rebalanceStep (⟨none, true, none⟩ : FetchState Nat)
        (FetchEvent.failure ⟨some "Erro", some "m"⟩)).2 = false ∧
    (rebalanceStep (⟨none, true, none⟩ : FetchState Nat)
        (FetchEvent.failure ⟨some "Erro", some "m"⟩)).1.error =
      some (rebalanceErrorMessage ⟨some "Erro", some "m"⟩) ∧
    rebalanceErrorMessage ⟨some "Erro", some "m"⟩ = "Erro" ∧
    evolutionErrorMessage ⟨some "Erro", some "m"⟩ = "Erro" ∧
    historyErrorMessage ⟨some "Erro", some "m"⟩ = "Erro" ∧
    evolutionErrorMessage ⟨none, none⟩ = "Falha ao carregar evolucao da carteira." ∧
    historyErrorMessage ⟨none, none⟩ = "Falha ao carregar histórico." :=
  have h := fetch_error_handling (D := Nat) ⟨none, true, none⟩ ⟨some "Erro", some "m"⟩ 0
  have h0 := fetch_error_handling (D := Nat) ⟨none, true, none⟩ ⟨none, none⟩ 0
  have hd := h.2.2.2.2.2.2.2.2.2.1 "Erro" rfl (by decide)
  have h0d := h0.2.2.2.2.2.2.2.2.2.2.1 rfl
  ⟨h.1, h.2.2.2.2.2.2.1, hd.1, hd.2.1, hd.2.2, h0d.2.1, h0d.2.2⟩

/-! ### RebalancePanel: query parameters, apply payload -/

/-- Rebalance suggestion fields used by the embedded logic (the source type
also carries class, value, weights and a rationale). -/
structure Suggestion where
  symbol : String
  action : String
  quantity : ℚ
  price_ref : ℚ
deriving Repr, DecidableEq

/-- Rebalance response fields used by the embedded logic. -/
structure RebalanceData where
  profile_source : String
  suggestions : List Suggestion
deriving Repr, DecidableEq

/-- RebalancePanel component state used by `load` and `handleApply`. -/
structure PanelState where
  data : Option RebalanceData
  profileOverride : String
  allowSells : Bool
  preferEtfs : Bool
  minTradeValue : ℚ
  maxTurnoverPercent : ℚ
  applying : Bool
deriving Repr, DecidableEq

/-- Value of a query parameter before stringification by `String(...)`. -/
inductive ParamValue
  | str (s : String)
  | num (q : ℚ)
  | bool (b : Bool)
deriving Repr, DecidableEq

/-- Query parameters built by `RebalancePanel.load`: `profile_override` is
set only when the override select is non-empty, then `allow_sells`,
`prefer_etfs`, `min_trade_value` (entered amount unchanged) and
`max_turnover` (entered percentage divided by 100). -/
def buildRebalanceParams (st : PanelState) : List (String × ParamValue) :=
  (if st.profileOverride = "" then []
   else [("profile_override", ParamValue.str st.profileOverride)]) ++
  [("allow_sells", ParamValue.bool st.allowSells),
   ("prefer_etfs", ParamValue.bool st.preferEtfs),
   ("min_trade_value", ParamValue.num st.minTradeValue),
   ("max_turnover", ParamValue.num (st.maxTurnoverPercent / 100))]

/-- Query string built by the legacy RebalancePanel variant:
`override ? "?profile_override=" + override : ""`. -/
def legacyRebalanceQuery (override : String) : String :=
  if override = "" then "" else "?profile_override=" ++ override

/-- Condition under which the UI renders the override mark:
`data?.profile_source === "override"`. -/
def overrideMarked (d : RebalanceData) : Bool := d.profile_source == "override"

/-- Item of the apply payload: the suggestion symbol and action, the
absolute value of the suggested quantity, and the reference price. -/
structure ApplyItem where
  symbol : String
  action : String
  quantity : ℚ
  price : ℚ
deriving Repr, DecidableEq

/-- Options echoed in the apply payload. -/
structure ApplyOptions where
  profile_override : Option String
  allow_sells : Bool
  prefer_etfs : Bool
  min_trade_value : ℚ
  max_turnover : ℚ
deriving Repr, DecidableEq

/-- Payload POSTed by `RebalancePanel.handleApply` to
/portfolio/rebalance/apply. -/
structure ApplyPayload where
  request_id : String
  suggestions : List ApplyItem
  options : ApplyOptions
  execution_date : String
deriving Repr, DecidableEq

/-- Mapping of one suggestion into the apply payload:
`(symbol, action, Math.abs(quantity), price_ref)`. -/
def toApplyItem (s : Suggestion) : ApplyItem :=
  ⟨s.symbol, s.action, |s.quantity|, s.price_ref⟩

/-- Payload built by `handleApply` from the current suggestions, the freshly
generated request id, the current option values and the local date of
today. -/
def buildApplyPayload (st : PanelState) (requestId today : String)
    (d : RebalanceData) : ApplyPayload :=
  { request_id := requestId
    suggestions := d.suggestions.map toApplyItem
    options :=
      { profile_override :=
          if st.profileOverride = "" then none else some st.profileOverride
        allow_sells := st.allowSells
        prefer_etfs := st.preferEtfs
        min_trade_value := st.minTradeValue
        max_turnover := st.maxTurnoverPercent / 100 }
    execution_date := today }

/-- Translation of `RebalancePanel.handleApply`: a no-op (no request) when
there is no response data, the suggestion list is empty, or an apply is
already in flight; otherwise it produces exactly one payload. -/
def handleApply (st : PanelState) (requestId today : String) : Option ApplyPayload :=
  match st.data with
  | none => none
  | some d =>
      if d.suggestions.isEmpty || st.applying then none
      else some (buildApplyPayload st requestId today d)

/-- Outcome of the POST to /portfolio/rebalance/apply. -/
inductive ApplyOutcome
  | success
  | failure (e : ApiError)

/-- Whether the apply completion triggers `await load()`: only the success
branch recomputes the plan from the backend. -/
def applyReloads : ApplyOutcome → Bool
  | ApplyOutcome.success => true
  | ApplyOutcome.failure _ => false

/-- C4: applying a rebalance plan only creates new Transactions through one
POST payload: `handleApply` is a no-op when the current suggestion list is
empty or an apply is in flight; otherwise it produces exactly one payload
containing every current suggestion mapped to (symbol, action, absolute
quantity, price_ref), the given fresh request id, the current option
values, and the local date of today; on success the plan is recomputed from
the backend (a reload request), never kept from the payload. -/
theorem handleApply_spec (st : PanelState) (reqId today : String) :
    ((st.data.map (fun d => d.suggestions)).getD [] = [] ∨ st.applying = true →
      handleApply st reqId today = none) ∧
    (∀ d, st.data = some d → d.suggestions ≠ [] → st.applying = false →
      handleApply st reqId today = some
        { request_id := reqId
          suggestions := d.suggestions.map
            (fun s => ⟨s.symbol, s.action, |s.quantity|, s.price_ref⟩)
          options :=
            { profile_override :=
                if st.profileOverride = "" then none else some st.profileOverride
              allow_sells := st.allowSells
              prefer_etfs := st.preferEtfs
              min_trade_value := st.minTradeValue
              max_turnover := st.maxTurnoverPercent / 100 }
          execution_date := today }) ∧
    applyReloads ApplyOutcome.success = true ∧
    (∀ e, applyReloads (ApplyOutcome.failure e) = false) := by
  refine ⟨?_, ?_, rfl, fun e => rfl⟩
  · intro h
    match hd : st.data with
    | none => simp [handleApply, hd]
    | some d =>
        rcases h with h | h
        · simp [hd] at h
          simp [handleApply, hd, h]
        · simp [handleApply, hd, h]
  · intro d hd hne hap
    simp [handleApply, hd, hne, hap, buildApplyPayload, toApplyItem]

/-- Witness for C4: a concrete panel state with one suggestion and no apply
in flight produces the mapped payload, and a state with an apply in flight
is a no-op; hypotheses discharged concretely. -/
theorem handleApply_spec_witness :
    handleApply
        ⟨some ⟨"stored", [⟨"PETR4.SA", "vender", -2, 37⟩]⟩,
          "", true, false, 100, 25, false⟩ "req-1" "2026-10-11" =
      some
        { request_id := "req-1"
          suggestions := [⟨"PETR4.SA", "vender", |(-2 : ℚ)|, 37⟩]
          options :=
            { profile_override := none
              allow_sells := true
              prefer_etfs := false
              min_trade_value := 100
              max_turnover := 25 / 100 }
          execution_date := "2026-10-11" } ∧
    handleApply
        ⟨some ⟨"stored", [⟨"PETR4.SA", "vender", -2, 37⟩]⟩,
          "", true, false, 100, 25, true⟩ "req-2" "2026-10-11" = none :=
  have h1 := handleApply_spec
    ⟨some ⟨"stored", [⟨"PETR4.SA", "vender", -2, 37⟩]⟩, "", true, false, 100, 25, false⟩
    "req-1" "2026-10-11"
  have h2 := handleApply_spec
    ⟨some ⟨"stored", [⟨"PETR4.SA", "vender", -2, 37⟩]⟩, "", true, false, 100, 25, true⟩
    "req-2" "2026-10-11"
  ⟨by
      have := h1.2.1 ⟨"stored", [⟨"PETR4.SA", "vender", -2, 37⟩]⟩ rfl (by decide) rfl
      simpa using this,
    h2.1 (Or.inr rfl)⟩

/-- C5: the manual profile override is optional: the `profile_override`
query parameter is included if and only if the user selected a non-empty
override value (in both the current and the legacy panel), and the response
`profile_source` field equal to override is the only case in which the UI
renders the override mark. -/
theorem profile_override_optional (st : PanelState) (d : RebalanceData) (o : String) :
    ((∃ v, ("profile_override", v) ∈ buildRebalanceParams st) ↔ st.profileOverride ≠ "") ∧
    (overrideMarked d = true ↔ d.profile_source = "override") ∧
    legacyRebalanceQuery "" = "" ∧
    (o ≠ "" → legacyRebalanceQuery o = "?profile_override=" ++ o) := by
  refine ⟨⟨?_, ?_⟩, ?_, rfl, ?_⟩
  · rintro ⟨v, hv⟩ h0
    simp [buildRebalanceParams, h0] at hv
  · intro h
    exact ⟨ParamValue.str st.profileOverride, by simp [buildRebalanceParams, h]⟩
  · simp [overrideMarked]
  · intro h
    simp [legacyRebalanceQuery, h]

/-- Witness for C5 at a concrete state with override conservador, one with
no override, and a response with profile_source stored; hypotheses
discharged concretely. -/
theorem profile_override_optional_witness :
    (∃ v, ("profile_override", v) ∈
      buildRebalanceParams ⟨none, "conservador", true, false, 100, 25, false⟩) ∧
    ¬ (∃ v, ("profile_override", v) ∈
      buildRebalanceParams ⟨none, "", true, false, 100, 25, false⟩) ∧
    overrideMarked ⟨"stored", []⟩ = false ∧
    legacyRebalanceQuery "" = "" ∧
    legacyRebalanceQuery "conservador" = "?profile_override=" ++ "conservador" :=
  have h1 := profile_override_optional
    ⟨none, "conservador", true, false, 100, 25, false⟩ ⟨"stored", []⟩ "conservador"
  have h2 := profile_override_optional
    ⟨none, "", true, false, 100, 25, false⟩ ⟨"stored", []⟩ "conservador"
  ⟨h1.1.mpr (by decide),
    fun hex => absurd (h2.1.mp hex) (by simp),
    by decide,
    h1.2.2.1,
    h1.2.2.2 (by decide)⟩

/-- C6: trade-size caps are forwarded exactly: in both the rebalance
calculation request and the apply payload, `max_turnover` equals the entered
percentage divided by 100 and `min_trade_value` equals the entered currency
amount unchanged; when the entered percentage lies in 0..100 the forwarded
`max_turnover` lies in the interval from 0 to 1. -/
theorem trade_caps_forwarded (st : PanelState) (reqId today : String) (d : RebalanceData) :
    ("max_turnover", ParamValue.num (st.maxTurnoverPercent / 100)) ∈
      buildRebalanceParams st ∧
    ("min_trade_value", ParamValue.num st.minTradeValue) ∈ buildRebalanceParams st ∧
    (buildApplyPayload st reqId today d).options.max_turnover =
      st.maxTurnoverPercent / 100 ∧
    (buildApplyPayload st reqId today d).options.min_trade_value = st.minTradeValue ∧
    (0 ≤ st.maxTurnoverPercent → st.maxTurnoverPercent ≤ 100 →
      0 ≤ st.maxTurnoverPercent / 100 ∧ st.maxTurnoverPercent / 100 ≤ 1) := by
  refine ⟨by simp [buildRebalanceParams], by simp [buildRebalanceParams], rfl, rfl, ?_⟩
  intro h0 h100
  constructor
  · positivity
  · rw [div_le_one (by norm_num : (0 : ℚ) < 100)]
    exact h100

/-- Witness for C6 at the default panel state (minimum trade value 100,
turnover percentage 25); inequality hypotheses discharged concretely. -/
theorem trade_caps_forwarded_witness :
    ("max_turnover",
        ParamValue.num
          ((⟨none, "", true, false, 100, 25, false⟩ : PanelState).maxTurnoverPercent / 100)) ∈
      buildRebalanceParams ⟨none, "", true, false, 100, 25, false⟩ ∧
    ("min_trade_value", ParamValue.num 100) ∈
      buildRebalanceParams ⟨none, "", true, false, 100, 25, false⟩ ∧
    (buildApplyPayload ⟨none, "", true, false, 100, 25, false⟩ "req-1" "2026-10-11"
        ⟨"stored", []⟩).options.max_turnover = 25 / 100 ∧
    (buildApplyPayload ⟨none, "", true, false, 100, 25, false⟩ "req-1" "2026-10-11"
        ⟨"stored", []⟩).options.min_trade_value = 100 ∧
    (0 ≤ (25 : ℚ) / 100 ∧ (25 : ℚ) / 100 ≤ 1) :=
  have h := trade_caps_forwarded
    ⟨none, "", true, false, 100, 25, false⟩ "req-1" "2026-10-11" ⟨"stored", []⟩
  ⟨h.1, h.2.1, h.2.2.1, h.2.2.2.1, h.2.2.2.2 (by norm_num) (by norm_num)⟩

/-! ### AllocationChart: pie grouping -/

/-- Entry of the allocation pie chart data: display name, monetary value and
percentage of the total.  The source builds the entries in two steps, first
`name` and `value`, then the `pct` mark; here `pct` starts at 0 and is
filled by `chartOrdered`. -/
structure ChartEntry where
  name : String
  value : ℚ
  pct : ℚ
deriving Repr, DecidableEq

/-- Descending-by-value ordering used by the chart sort comparator
`(a, b) => b.value - a.value`; the ECMAScript sort is stable, so the result
equals a stable descending sort, modelled here by `List.insertionSort`. -/
def chartDescRel (x y : ChartEntry) : Prop := y.value ≤ x.value

instance : DecidableRel chartDescRel :=
  fun x y => inferInstanceAs (Decidable (y.value ≤ x.value))

instance : IsTotal ChartEntry chartDescRel := ⟨fun a b => le_total b.value a.value⟩

instance : IsTrans ChartEntry chartDescRel := ⟨fun _ _ _ hab hbc => le_trans hbc hab⟩

/-- Raw entries of the chart:
`assets.map((a) => ({ name: a.symbol || "—", value: (a.quantity ?? 1) * (a.last_price ?? 1) }))`. -/
def chartRaw (assets : List Asset) : List ChartEntry :=
  assets.map (fun a => ⟨if a.symbol = "" then "—" else a.symbol, rawValue a, 0⟩)

/-- Chart total: `raw.reduce((s, r) => s + r.value, 0) || 1` (the sum, with
the falsy value 0 replaced by 1). -/
def chartTotal (assets : List Asset) : ℚ :=
  let t := ((chartRaw assets).map (fun r => r.value)).sum
  if t = 0 then 1 else t

/-- Raw entries with the percentage mark filled in, sorted by value
descending (stable). -/
def chartOrdered (assets : List Asset) : List ChartEntry :=
  List.insertionSort chartDescRel
    ((chartRaw assets).map
      (fun r => { r with pct := r.value / chartTotal assets * 100 }))

/-- Entries whose share is at least 3 percent: `ordered.filter((x) => x.pct >= 3)`. -/
def chartMajor (assets : List Asset) : List ChartEntry :=
  (chartOrdered assets).filter (fun x => decide (3 ≤ x.pct))

/-- Entries whose share is below 3 percent: `ordered.filter((x) => x.pct < 3)`. -/
def chartMinor (assets : List Asset) : List ChartEntry :=
  (chartOrdered assets).filter (fun x => decide (x.pct < 3))

/-- Merged value of the below-3-percent entries. -/
def chartOthersValue (assets : List Asset) : ℚ :=
  ((chartMinor assets).map (fun r => r.value)).sum

/-- Translation of `AllocationChart.data`: empty input yields no entries;
otherwise the at-least-3-percent entries in descending value order,
followed by a single Outros entry holding the merged below-3-percent value
when that merged value is positive. -/
def allocationData (assets : List Asset) : List ChartEntry :=
  if assets.isEmpty then []
  else if 0 < chartOthersValue assets then
    chartMajor assets ++
      [⟨"Outros", chartOthersValue assets,
        chartOthersValue assets / chartTotal assets * 100⟩]
  else chartMajor assets

/-- C9 counterexample: with a short position the merged below-3-percent
value is negative, the Outros entry is dropped, and the chart total value
is no longer the sum of the input values: assets with values 100 and -10
(sum 90) yield chart data whose values sum to 100. -/
theorem allocation_sum_not_preserved :
    ([(⟨"A", some 1, some 100⟩ : Asset), ⟨"B", some (-1), some 10⟩] ≠ []) ∧
    ((allocationData [⟨"A", some 1, some 100⟩, ⟨"B", some (-1), some 10⟩]).map
        (fun e => e.value)).sum = 100 ∧
    (([(⟨"A", some 1, some 100⟩ : Asset), ⟨"B", some (-1), some 10⟩]).map rawValue).sum = 90 ∧
    ((allocationData [⟨"A", some 1, some 100⟩, ⟨"B", some (-1), some 10⟩]).map
        (fun e => e.value)).sum ≠
      (([(⟨"A", some 1, some 100⟩ : Asset), ⟨"B", some (-1), some 10⟩]).map rawValue).sum := by
  have h1 : ((allocationData [⟨"A", some 1, some 100⟩, ⟨"B", some (-1), some 10⟩]).map
      (fun e => e.value)).sum = 100 := by
    norm_num [allocationData, chartMajor, chartMinor, chartOrdered, chartRaw, chartTotal,
      chartOthersValue, rawValue, chartDescRel, List.insertionSort, List.orderedInsert]
  have h2 : (([(⟨"A", some 1, some 100⟩ : Asset), ⟨"B", some (-1), some 10⟩]).map rawValue).sum
      = 90 := by
    norm_num [rawValue]
  refine ⟨by decide, h1, h2, ?_⟩
  rw [h1, h2]
  norm_num

/-- Splitting a list of chart entries at the 3 percent threshold splits its
value sum. -/
theorem filter_split_sum (l : List ChartEntry) :
    ((l.filter (fun x => decide (3 ≤ x.pct))).map (fun e => e.value)).sum +
      ((l.filter (fun x => decide (x.pct < 3))).map (fun e => e.value)).sum =
      (l.map (fun e => e.value)).sum := by
  induction l with
  | nil => simp
  | cons x xs ih =>
    by_cases h : (3 : ℚ) ≤ x.pct
    · simp only [List.filter_cons, decide_eq_true_eq]
      rw [if_pos h, if_neg (not_lt.mpr h)]
      simp only [List.map_cons, List.sum_cons]
      rw [add_assoc, ih]
    · simp only [List.filter_cons, decide_eq_true_eq]
      rw [if_neg h, if_pos (not_le.mp h)]
      simp only [List.map_cons, List.sum_cons]
      rw [← ih]
      ring

/-- Every entry of the sorted chart list carries the value of one of the
input assets. -/
theorem mem_chartOrdered_value {assets : List Asset} {e : ChartEntry}
    (he : e ∈ chartOrdered assets) : ∃ a ∈ assets, e.value = rawValue a := by
  have hmem := (List.perm_insertionSort chartDescRel _).mem_iff.mp he
  simp only [chartRaw, List.map_map, List.mem_map, Function.comp] at hmem
  rcases hmem with ⟨a, ha, rfl⟩
  exact ⟨a, ha, rfl⟩

/-- Value sum of the sorted chart list equals the value sum of the input
assets. -/
theorem chartOrdered_sum (assets : List Asset) :
    ((chartOrdered assets).map (fun e => e.value)).sum = (assets.map rawValue).sum := by
  have hperm := (List.perm_insertionSort chartDescRel
    ((chartRaw assets).map
      (fun r => { r with pct := r.value / chartTotal assets * 100 }))).map
    (fun e => e.value)
  rw [chartOrdered, hperm.sum_eq]
  simp only [chartRaw, List.map_map]
  rfl

/-- C9 (amended): for every non-empty asset list whose position values are
all nonnegative, the chart data preserves the total: the sum of the output
values equals the sum of the input values; every entry other than Outros
has share at least 3 percent; the entries are in descending value order
with Outros trailing; and when the merged below-3-percent value is not
positive no Outros entry is present (every entry then has share at least 3
percent). -/
theorem allocation_chart_spec (assets : List Asset) (hne : assets ≠ [])
    (hnn : ∀ a ∈ assets, 0 ≤ rawValue a) :
    ((allocationData assets).map (fun e => e.value)).sum = (assets.map rawValue).sum ∧
    (∀ e ∈ allocationData assets, e.name = "Outros" ∨ 3 ≤ e.pct) ∧
    List.Pairwise (fun x y => y.name = "Outros" ∨ y.value ≤ x.value)
      (allocationData assets) ∧
    (¬ 0 < chartOthersValue assets → ∀ e ∈ allocationData assets, 3 ≤ e.pct) := by
  have hE : assets.isEmpty = false := by
    simpa [List.isEmpty_iff] using hne
  have hsplit := filter_split_sum (chartOrdered assets)
  have hsum := chartOrdered_sum assets
  have hminor_nonneg : 0 ≤ chartOthersValue assets := by
    apply List.sum_nonneg
    intro x hx
    rcases List.mem_map.mp hx with ⟨e, he, rfl⟩
    have he' : e ∈ chartOrdered assets :=
      (List.filter_sublist (chartOrdered assets)).subset he
    rcases mem_chartOrdered_value he' with ⟨a, ha, hv⟩
    rw [hv]
    exact hnn a ha
  have hsorted : List.Pairwise chartDescRel (chartOrdered assets) :=
    List.sorted_insertionSort chartDescRel _
  have hmajorS : List.Pairwise chartDescRel (chartMajor assets) :=
    List.Pairwise.sublist (List.filter_sublist _) hsorted
  by_cases hpos : 0 < chartOthersValue assets
  · have hAD : allocationData assets =
        chartMajor assets ++
          [⟨"Outros", chartOthersValue assets,
            chartOthersValue assets / chartTotal assets * 100⟩] := by
      simp [allocationData, hE, hpos]
    refine ⟨?_, ?_, ?_, ?_⟩
    · rw [hAD]
      simp only [List.map_append, List.sum_append, List.map_cons, List.map_nil,
        List.sum_cons, List.sum_nil, add_zero]
      rw [← hsum, ← hsplit]
      rfl
    · intro e he
      rw [hAD] at he
      rcases List.mem_append.mp he with h | h
      · exact Or.inr (by simpa using List.of_mem_filter h)
      · simp only [List.mem_singleton] at h
        subst h
        exact Or.inl rfl
    · rw [hAD, List.pairwise_append]
      refine ⟨hmajorS.imp (fun h => Or.inr h), List.pairwise_singleton _ _, ?_⟩
      intro a _ b hb
      simp only [List.mem_singleton] at hb
      subst hb
      exact Or.inl rfl
    · intro hc
      exact absurd hpos hc
  · have hAD : allocationData assets = chartMajor assets := by
      simp [allocationData, hE, hpos]
    have hzero : chartOthersValue assets = 0 :=
      le_antisymm (not_lt.mp hpos) hminor_nonneg
    refine ⟨?_, ?_, ?_, ?_⟩
    · rw [hAD, ← hsum, ← hsplit]
      have : ((chartMinor assets).map (fun e => e.value)).sum = 0 := hzero
      rw [show ((List.filter (fun x => decide (x.pct < 3)) (chartOrdered assets)).map
          (fun e => e.value)).sum = (0 : ℚ) from this]
      simp [chartMajor]
    · intro e he
      rw [hAD] at he
      exact Or.inr (by simpa using List.of_mem_filter he)
    · rw [hAD]
      exact hmajorS.imp (fun h => Or.inr h)
    · intro _ e he
      rw [hAD] at he
      simpa using List.of_mem_filter he

/-- Witness for C9 (amended) at two concrete portfolios: one with values 50
and 1 (the small position is merged into a positive Outros entry and the
total is preserved) and a singleton one (no Outros entry, every entry has
share at least 3 percent); all hypotheses discharged concretely. -/
theorem allocation_chart_spec_witness :
    ((allocationData [⟨"AAA", some 1, some 50⟩, ⟨"BBB", some 1, some 1⟩]).map
        (fun e => e.value)).sum =
      (([(⟨"AAA", some 1, some 50⟩ : Asset), ⟨"BBB", some 1, some 1⟩]).map rawValue).sum ∧
    (∀ e ∈ allocationData [⟨"AAA", some 1, some 50⟩, ⟨"BBB", some 1, some 1⟩],
      e.name = "Outros" ∨ 3 ≤ e.pct) ∧
    List.Pairwise (fun x y => y.name = "Outros" ∨ y.value ≤ x.value)
      (allocationData [⟨"AAA", some 1, some 50⟩, ⟨"BBB", some 1, some 1⟩]) ∧
    (∀ e ∈ allocationData [⟨"AAA", some 1, some 50⟩], 3 ≤ e.pct) :=
  have hA := allocation_chart_spec
    [⟨"AAA", some 1, some 50⟩, ⟨"BBB", some 1, some 1⟩]
    (by simp)
    (by
      intro a ha
      simp only [List.mem_cons, List.not_mem_nil, or_false] at ha
      rcases ha with rfl | rfl <;> norm_num [rawValue])
  have hS := allocation_chart_spec [⟨"AAA", some 1, some 50⟩]
    (by simp)
    (by
      intro a ha
      simp only [List.mem_cons, List.not_mem_nil, or_false] at ha
      rcases ha with rfl
      norm_num [rawValue])
  ⟨hA.1, hA.2.1, hA.2.2.1,
    hS.2.2.2 (by
      norm_num [chartOthersValue, chartMinor, chartOrdered, chartRaw, chartTotal,
        rawValue, chartDescRel, List.insertionSort, List.orderedInsert])⟩

/-! ### NewsList: sorting by publication date -/

/-- News item fields used by the embedded sorting logic: `published_at`
holds the parsed timestamp (`Date.parse`, in milliseconds) when the field is
present and truthy, and `none` otherwise. -/
structure News where
  id : Nat
  published_at : Option Int
deriving Repr, DecidableEq

/-- Sort key of the news comparator:
`a.published_at ? Date.parse(a.published_at) : 0`. -/
def newsKey (n : News) : Int := n.published_at.getD 0

/-- Descending ordering induced by the comparator `(a, b) => db - da`; the
ECMAScript sort is stable, so the result equals a stable descending sort,
modelled by `List.insertionSort`. -/
def newsDescRel (a b : News) : Prop := newsKey b ≤ newsKey a

instance : DecidableRel newsDescRel :=
  fun a b => inferInstanceAs (Decidable (newsKey b ≤ newsKey a))

instance : IsTotal News newsDescRel := ⟨fun a b => le_total (newsKey b) (newsKey a)⟩

instance : IsTrans News newsDescRel := ⟨fun _ _ _ hab hbc => le_trans hbc hab⟩

/-- Translation of `NewsList.items`: `[...news].sort((a, b) => db - da)`, a
stable descending sort of a copy of the state array. -/
def newsItems (news : List News) : List News := List.insertionSort newsDescRel news

/-- C10 counterexample: the claim says an item with missing `published_at`
is ordered after all dated items, but a dated item whose parsed timestamp
is negative (a publication date before 1970) sorts after the missing-date
item, whose key 0 is larger. -/
theorem news_undated_not_last :
    newsItems [⟨1, some (-5)⟩, ⟨2, none⟩] = [⟨2, none⟩, ⟨1, some (-5)⟩] ∧
    (⟨2, none⟩ : News).published_at = none ∧
    (⟨1, some (-5)⟩ : News).published_at ≠ none := by
  refine ⟨by decide, rfl, by decide⟩

/-- C10 (amended): the rendered news list is a permutation of the fetched
items, sorted descending by the key that treats a missing `published_at` as
timestamp 0; the sort operates on a copy, the original list being
unchanged; and whenever every dated item has a positive timestamp, every
item with a missing date is ordered after all dated items. -/
theorem news_sorted (news : List News) :
    (newsItems news).Perm news ∧
    List.Pairwise (fun a b => newsKey b ≤ newsKey a) (newsItems news) ∧
    ((∀ n ∈ news, ∀ t, n.published_at = some t → 0 < t) →
      List.Pairwise (fun a b => a.published_at = none → b.published_at = none)
        (newsItems news)) := by
  refine ⟨List.perm_insertionSort _ _, List.sorted_insertionSort newsDescRel news, ?_⟩
  intro hpos
  have hs : List.Pairwise newsDescRel (newsItems news) :=
    List.sorted_insertionSort newsDescRel news
  apply List.Pairwise.imp_of_mem ?_ hs
  intro a b _ hb hr hanone
  have hb' : b ∈ news := (List.perm_insertionSort newsDescRel news).mem_iff.mp hb
  cases hbp : b.published_at with
  | none => rfl
  | some t =>
      have ht := hpos b hb' t hbp
      have hkb : newsKey b = t := by simp [newsKey, hbp]
      have hka : newsKey a = 0 := by simp [newsKey, hanone]
      rw [newsDescRel, hka, hkb] at hr
      exact absurd hr (not_le.mpr ht)

/-- Witness for C10 (amended) at a concrete fetched list with timestamps 10
and 20 and one undated item; the positive-timestamp hypothesis discharged
concretely. -/
theorem news_sorted_witness :
    (newsItems [⟨1, some 10⟩, ⟨2, none⟩, ⟨3, some 20⟩]).Perm
      [⟨1, some 10⟩, ⟨2, none⟩, ⟨3, some 20⟩] ∧
    List.Pairwise (fun a b => newsKey b ≤ newsKey a)
      (newsItems [⟨1, some 10⟩, ⟨2, none⟩, ⟨3, some 20⟩]) ∧
    List.Pairwise (fun a b => a.published_at = none → b.published_at = none)
      (newsItems [⟨1, some 10⟩, ⟨2, none⟩, ⟨3, some 20⟩]) :=
  have h := news_sorted [⟨1, some 10⟩, ⟨2, none⟩, ⟨3, some 20⟩]
  ⟨h.1, h.2.1, h.2.2 (by decide)⟩

end InvestIA
